import Mathlib

/-!
Verification of the finance-utils repository: the German income-tax schedule
(`Steuer` in src/tax/de/income.ts) and the inflation adjuster (`Inflation`,
known through its tests in tests/inflation_test.ts and the spec).

Monetary amounts and rates are embedded as exact rationals (ℚ); fallible
methods (which `throw` in the source) return `Except String`.
-/

namespace FinanceUtils

/-- Decidable equality of `Except` results, so that concrete runs of the
embedded functions can be checked by `decide`. -/
instance {ε α : Type} [DecidableEq ε] [DecidableEq α] : DecidableEq (Except ε α) := fun a b =>
  match a, b with
  | .error e, .error f =>
    if h : e = f then isTrue (by rw [h]) else isFalse (by simp [h])
  | .error _, .ok _ => isFalse (by simp)
  | .ok _, .error _ => isFalse (by simp)
  | .ok x, .ok y =>
    if h : x = y then isTrue (by rw [h]) else isFalse (by simp [h])

/-- Parameters of the tax schedule, translated from `Params` in
src/tax/de/income.ts: a year, four income thresholds E0..E3 (upper bounds of
the zones), the cumulative amounts S1..S3 at E1..E3, the progression
coefficients p1, p2 and the initial marginal rates sg1..sg4. -/
structure Params where
  Jahr : Int
  E0 : ℚ
  E1 : ℚ
  E2 : ℚ
  E3 : ℚ
  S1 : ℚ
  S2 : ℚ
  S3 : ℚ
  p1 : ℚ
  sg1 : ℚ
  p2 : ℚ
  sg2 : ℚ
  sg3 : ℚ
  sg4 : ℚ
deriving DecidableEq

/-- The error message thrown by `steuerbetrag`, `steuersatz` and
`grenzsteuersatz` on negative income (src/tax/de/income.ts). -/
def invalidInputMsg : String := "Zu versteuerndes Einkommen kann nicht negativ sein"

/-- `Steuer.steuerbetrag` (src/tax/de/income.ts lines 218-256): the tax amount
for taxable income `zvE`, selected by the first matching zone comparison. -/
def steuerbetrag (P : Params) (zvE : ℚ) : Except String ℚ :=
  if zvE < 0 then .error invalidInputMsg
  else if zvE ≤ P.E0 then .ok 0
  else if P.E0 < zvE ∧ zvE ≤ P.E1 then
    .ok (P.sg1 * (zvE - P.E0) + (zvE - P.E0) ^ 2 * P.p1)
  else if P.E1 < zvE ∧ zvE ≤ P.E2 then
    .ok (P.sg2 * (zvE - P.E1) + (zvE - P.E1) ^ 2 * P.p2 + P.S1)
  else if P.E2 < zvE ∧ zvE ≤ P.E3 then
    .ok (P.sg3 * (zvE - P.E2) + P.S2)
  else if P.E3 < zvE then
    .ok (P.sg4 * (zvE - P.E3) + P.S3)
  else .error "unreachable"

/-- `Steuer.steuersatz` (src/tax/de/income.ts lines 263-273): the average rate
`steuerbetrag zvE / zvE`, with 0 at income 0. -/
def steuersatz (P : Params) (zvE : ℚ) : Except String ℚ :=
  if zvE < 0 then .error invalidInputMsg
  else if zvE = 0 then .ok 0
  else (steuerbetrag P zvE).map (fun s => s / zvE)

/-- `Steuer.grenzsteuersatz` (src/tax/de/income.ts lines 281-314): the marginal
rate, selected by the same zone comparisons as `steuerbetrag`. -/
def grenzsteuersatz (P : Params) (zvE : ℚ) : Except String ℚ :=
  if zvE < 0 then .error invalidInputMsg
  else if zvE ≤ P.E0 then .ok 0
  else if P.E0 < zvE ∧ zvE ≤ P.E1 then .ok (P.sg1 + (zvE - P.E0) * P.p1 * 2)
  else if P.E1 < zvE ∧ zvE ≤ P.E2 then .ok (P.sg2 + (zvE - P.E1) * P.p2 * 2)
  else if P.E2 < zvE ∧ zvE ≤ P.E3 then .ok P.sg3
  else if P.E3 < zvE then .ok P.sg4
  else .error "unreachable"

/-- The parameter-validity constraints the spec assumes of a schedule:
ordered nonnegative thresholds, nonnegative progression coefficients,
monotone marginal rates bounded by 1, and S1, S2, S3 equal to the continuity
constants of the piecewise formula. -/
def Valid (P : Params) : Prop :=
  0 ≤ P.E0 ∧ P.E0 < P.E1 ∧ P.E1 < P.E2 ∧ P.E2 < P.E3 ∧
  0 ≤ P.p1 ∧ 0 ≤ P.p2 ∧
  0 ≤ P.sg1 ∧ P.sg1 ≤ P.sg2 ∧ P.sg2 ≤ P.sg3 ∧ P.sg3 ≤ P.sg4 ∧ P.sg4 ≤ 1 ∧
  P.S1 = P.sg1 * (P.E1 - P.E0) + P.p1 * (P.E1 - P.E0) ^ 2 ∧
  P.S2 = P.sg2 * (P.E2 - P.E1) + P.p2 * (P.E2 - P.E1) ^ 2 + P.S1 ∧
  P.S3 = P.sg3 * (P.E3 - P.E2) + P.S2

/-- The tax amount rewritten as a sum of per-zone contributions, each a
function of the income clamped to that zone: an equivalent closed form used to
prove monotonicity. -/
def hingeTax (P : Params) (z : ℚ) : ℚ :=
  P.sg1 * min (max (z - P.E0) 0) (P.E1 - P.E0) +
    P.p1 * min (max (z - P.E0) 0) (P.E1 - P.E0) ^ 2 +
    P.sg2 * min (max (z - P.E1) 0) (P.E2 - P.E1) +
    P.p2 * min (max (z - P.E1) 0) (P.E2 - P.E1) ^ 2 +
    P.sg3 * min (max (z - P.E2) 0) (P.E3 - P.E2) +
    P.sg4 * max (z - P.E3) 0

/-- The tax-amount function read over the reals: the same piecewise formula as
`steuerbetrag` (without the negative-income guard), used to state the
derivative property of the marginal rate. -/
noncomputable def taxR (P : Params) (x : ℝ) : ℝ :=
  if x ≤ (P.E0 : ℝ) then 0
  else if x ≤ (P.E1 : ℝ) then (P.sg1 : ℝ) * (x - P.E0) + (x - P.E0) ^ 2 * P.p1
  else if x ≤ (P.E2 : ℝ) then (P.sg2 : ℝ) * (x - P.E1) + (x - P.E1) ^ 2 * P.p2 + P.S1
  else if x ≤ (P.E3 : ℝ) then (P.sg3 : ℝ) * (x - P.E2) + P.S2
  else (P.sg4 : ℝ) * (x - P.E3) + P.S3

/-- A concrete parameter set used to instantiate the theorems: thresholds
10 < 20 < 30 < 40, rates 0.1 ≤ 0.2 ≤ 0.3 ≤ 0.4, progression 0.01, and the
continuity amounts S1 = 2, S2 = 5, S3 = 8. -/
def paramsW : Params :=
  { Jahr := 2003, E0 := 10, E1 := 20, E2 := 30, E3 := 40, S1 := 2, S2 := 5, S3 := 8,
    p1 := 1/100, sg1 := 1/10, p2 := 1/100, sg2 := 2/10, sg3 := 3/10, sg4 := 4/10 }

/-- Modelled from the spec: the `Inflation` class of src/inflation/inflation.ts
is not among the repository's source files (only its tests are), so its data is
taken from the spec's data model — a year-indexed inflation-rate table with
explicit coverage bounds `[minYear, maxYear]`, and a sparse table of one-time
currency-conversion factors.  Per the tests, a table with rate keys
1999..2006 covers the years 1998..2006: the rate of year y is the inflation
from y-1 to y, so `minYear` is the smallest rate key minus one. -/
structure Inflation where
  rates : Int → ℚ
  minYear : Int
  maxYear : Int
  conversions : Int → Option ℚ

/-- The currency-conversion factor crossed at year `y` (1 when the sparse
table has no entry). -/
def convFactor (inf : Inflation) (y : Int) : ℚ :=
  match inf.conversions y with
  | some c => c
  | none => 1

/-- The multiplicative factor applied when the traversal crosses year `y`:
the compounding factor `1 + rate/100` together with any conversion factor. -/
def stepFactor (inf : Inflation) (y : Int) : ℚ :=
  (1 + inf.rates y / 100) * convFactor inf y

/-- The years in the half-open interval `(a, b]`, ascending (empty when
`b ≤ a`). -/
def spanYears (a b : Int) : List Int :=
  (List.range (b - a).toNat).map (fun i => a + 1 + i)

/-- The compounding product over the years in `(a, b]`. -/
def compFactor (inf : Inflation) (a b : Int) : ℚ :=
  ((spanYears a b).map (stepFactor inf)).prod

/-- The out-of-range message for a start year below the minimum
(tests/inflation_test.ts line 85). -/
def startMinMsg (y m : Int) : String :=
  "Start year '" ++ toString y ++ "' must be greater than or equal to minimum year '" ++
    toString m ++ "'."

/-- The out-of-range message for a start year above the maximum
(tests/inflation_test.ts line 163). -/
def startMaxMsg (y m : Int) : String :=
  "Start year '" ++ toString y ++ "' must be less than or equal to maximum year '" ++
    toString m ++ "'."

/-- The out-of-range message for an end year below the minimum
(tests/inflation_test.ts line 151). -/
def endMinMsg (y m : Int) : String :=
  "End year '" ++ toString y ++ "' must be greater than or equal to minimum year '" ++
    toString m ++ "'."

/-- The out-of-range message for an end year above the maximum
(tests/inflation_test.ts line 97). -/
def endMaxMsg (y m : Int) : String :=
  "End year '" ++ toString y ++ "' must be less than or equal to maximum year '" ++
    toString m ++ "'."

/-- Modelled from the spec: `Inflation.adjust` of src/inflation/inflation.ts is
not among the repository's source files.  Following the spec's algorithm
(steps 1-5 of section 4.2) and the exact messages of its tests: an equal
from/to year returns the amount unchanged; then both years are validated
against the table's coverage; a forward span multiplies by the compounding
factors (with conversion factors) over `(fromYear, toYear]`, a backward span
divides by the same product over `(toYear, fromYear]`. -/
def adjust (inf : Inflation) (amount : ℚ) (fromYear toYear : Int) : Except String ℚ :=
  if fromYear = toYear then .ok amount
  else if fromYear < inf.minYear then .error (startMinMsg fromYear inf.minYear)
  else if fromYear > inf.maxYear then .error (startMaxMsg fromYear inf.maxYear)
  else if toYear < inf.minYear then .error (endMinMsg toYear inf.minYear)
  else if toYear > inf.maxYear then .error (endMaxMsg toYear inf.maxYear)
  else if fromYear < toYear then .ok (amount * compFactor inf fromYear toYear)
  else .ok (amount / compFactor inf toYear fromYear)

/-- The German inflation-rate table of tests/inflation_test.ts (percent per
year; keys 1999..2006, all other years 0). -/
def rates_de : Int → ℚ := fun y =>
  if y = 1999 then 0.7
  else if y = 2000 then 1.3
  else if y = 2001 then 2.0
  else if y = 2002 then 1.4
  else if y = 2003 then 1.0
  else if y = 2004 then 1.6
  else if y = 2005 then 1.6
  else if y = 2006 then 1.6
  else 0

/-- The German currency-conversion table of tests/inflation_test.ts: the
DM-to-Euro conversion 1/1.95583 at 2002. -/
def conversions_de : Int → Option ℚ := fun y =>
  if y = 2002 then some (1 / 1.95583) else none

/-- The adjuster configured as in tests/inflation_test.ts: rate keys
1999..2006, hence coverage 1998..2006, with the 2002 currency conversion. -/
def inflation_de : Inflation :=
  { rates := rates_de, minYear := 1998, maxYear := 2006, conversions := conversions_de }

/-- A degenerate rate table with a -100% inflation rate: every compounding
factor is 0, so forward adjustment annihilates the amount. -/
def degenerateInflation : Inflation :=
  { rates := fun _ => -100, minYear := 2000, maxYear := 2001, conversions := fun _ => none }

/-- Modelled from the spec: the `range` helper imported from src/deps.ts is
not among the repository's source files.  Per the spec's sampling contract,
it produces an evenly spaced sequence over `[start, end]`: `steps + 1` points
`start + i * step`. -/
def sampleRange (start step : ℚ) (steps : ℕ) : List ℚ :=
  (List.range (steps + 1)).map (fun (i : ℕ) => start + (i : ℚ) * step)

/-- A sampled chart point: an income, a value, and the series label. -/
structure DataPoint where
  zvE : ℚ
  Wert : ℚ
  Wertart : String
deriving DecidableEq

/-- The validation message for a negative sampling start
(src/unnamed/part_000 line 228). -/
def startNonnegMsg (s : ℚ) : String :=
  "Start '" ++ toString s ++ "' must be greater or equal to 0"

/-- The validation message for a sampling start above E0
(src/unnamed/part_000 line 233). -/
def startLeMsg (s e0 : ℚ) : String :=
  "Start '" ++ toString s ++ "' must be less or equal to E0 '" ++ toString e0 ++ "'"

/-- The validation message for a sampling end below E3
(src/unnamed/part_000 line 239). -/
def endGeMsg (e e3 : ℚ) : String :=
  "End '" ++ toString e ++ "' must be greater or equal to E3 '" ++ toString e3 ++ "'"

/-- The validation message for a base year before the schedule's year
(src/unnamed/part_000 line 277). -/
def baseyearMsg (b j : Int) : String :=
  "Base year '" ++ toString b ++ "' must be greater or equal to year '" ++ toString j ++ "'"

/-- `Steuer.steuerbetrag_data` (src/unnamed/part_000 lines 220-251): validates
the sampling bounds, then samples the nominal tax amount on an evenly spaced
grid (the grid itself modelled from the spec, see `sampleRange`). -/
def steuerbetrag_data (P : Params) (start ende : ℚ) (steps : ℕ) :
    Except String (List DataPoint) :=
  if start < 0 then .error (startNonnegMsg start)
  else if start > P.E0 then .error (startLeMsg start P.E0)
  else if ende < P.E3 then .error (endGeMsg ende P.E3)
  else
    (sampleRange start ((ende - start) / (steps : ℚ)) steps).mapM
      (fun z => (steuerbetrag P z).map (fun w => ⟨z, w, "Nominalwert"⟩))

/-- `Steuer.steuersatz_data` (src/unnamed/part_000 lines 317-348): validates
the sampling bounds, then samples the nominal average rate. -/
def steuersatz_data (P : Params) (start ende : ℚ) (steps : ℕ) :
    Except String (List DataPoint) :=
  if start < 0 then .error (startNonnegMsg start)
  else if start > P.E0 then .error (startLeMsg start P.E0)
  else if ende < P.E3 then .error (endGeMsg ende P.E3)
  else
    (sampleRange start ((ende - start) / (steps : ℚ)) steps).mapM
      (fun z => (steuersatz P z).map (fun w => ⟨z, w, "Nominalwert"⟩))

/-- `Steuer.steuerbetrag_real_data` (src/unnamed/part_000 lines 262-307):
validates the base year, then the sampling bounds, then samples the
inflation-adjusted income and tax amount and cuts off adjusted incomes beyond
the nominal end. -/
def steuerbetrag_real_data (P : Params) (inf : Inflation) (baseyear : Int)
    (start ende : ℚ) (steps : ℕ) : Except String (List DataPoint) :=
  if P.Jahr > baseyear then .error (baseyearMsg baseyear P.Jahr)
  else if start < 0 then .error (startNonnegMsg start)
  else if start > P.E0 then .error (startLeMsg start P.E0)
  else if ende < P.E3 then .error (endGeMsg ende P.E3)
  else
    ((sampleRange start ((ende - start) / (steps : ℚ)) steps).mapM
      (fun z =>
        (adjust inf z P.Jahr baseyear).bind (fun zr =>
          (steuerbetrag P z).bind (fun w =>
            (adjust inf w P.Jahr baseyear).map (fun wr =>
              (⟨zr, wr, "Realwert (" ++ toString baseyear ++ ")"⟩ : DataPoint)))))).map
      (fun l => l.filter (fun p => p.zvE ≤ ende))

/-- `Steuer.steuersatz_real_data` (src/unnamed/part_000 lines 359-404):
validates the base year, then the sampling bounds, then samples the
inflation-adjusted income against the nominal average rate and cuts off
adjusted incomes beyond the nominal end. -/
def steuersatz_real_data (P : Params) (inf : Inflation) (baseyear : Int)
    (start ende : ℚ) (steps : ℕ) : Except String (List DataPoint) :=
  if P.Jahr > baseyear then .error (baseyearMsg baseyear P.Jahr)
  else if start < 0 then .error (startNonnegMsg start)
  else if start > P.E0 then .error (startLeMsg start P.E0)
  else if ende < P.E3 then .error (endGeMsg ende P.E3)
  else
    ((sampleRange start ((ende - start) / (steps : ℚ)) steps).mapM
      (fun z =>
        (adjust inf z P.Jahr baseyear).bind (fun zr =>
          (steuersatz P z).map (fun w =>
            (⟨zr, w, "Realwert (" ++ toString baseyear ++ ")"⟩ : DataPoint))))).map
      (fun l => l.filter (fun p => p.zvE ≤ ende))

/-! ## Zone-evaluation lemmas for `steuerbetrag` -/

/-- Evaluation of `steuerbetrag` in the null zone. -/
theorem steuerbetrag_zone0 (P : Params) (zvE : ℚ) (h : 0 ≤ zvE) (h0 : zvE ≤ P.E0) :
    steuerbetrag P zvE = .ok 0 := by
  unfold steuerbetrag
  rw [if_neg (not_lt.mpr h), if_pos h0]

/-- Evaluation of `steuerbetrag` in progression zone 1. -/
theorem steuerbetrag_zone1 (P : Params) (zvE : ℚ) (h : 0 ≤ zvE)
    (h0 : P.E0 < zvE) (h1 : zvE ≤ P.E1) :
    steuerbetrag P zvE = .ok (P.sg1 * (zvE - P.E0) + (zvE - P.E0) ^ 2 * P.p1) := by
  unfold steuerbetrag
  rw [if_neg (not_lt.mpr h), if_neg (not_le.mpr h0), if_pos ⟨h0, h1⟩]

/-- Evaluation of `steuerbetrag` in progression zone 2. -/
theorem steuerbetrag_zone2 (P : Params) (zvE : ℚ) (h : 0 ≤ zvE)
    (h0 : P.E0 < zvE) (h1 : P.E1 < zvE) (h2 : zvE ≤ P.E2) :
    steuerbetrag P zvE = .ok (P.sg2 * (zvE - P.E1) + (zvE - P.E1) ^ 2 * P.p2 + P.S1) := by
  unfold steuerbetrag
  rw [if_neg (not_lt.mpr h), if_neg (not_le.mpr h0),
    if_neg (fun hc => absurd hc.2 (not_le.mpr h1)), if_pos ⟨h1, h2⟩]

/-- Evaluation of `steuerbetrag` in proportionality zone 1. -/
theorem steuerbetrag_zone3 (P : Params) (zvE : ℚ) (h : 0 ≤ zvE)
    (h0 : P.E0 < zvE) (h1 : P.E1 < zvE) (h2 : P.E2 < zvE) (h3 : zvE ≤ P.E3) :
    steuerbetrag P zvE = .ok (P.sg3 * (zvE - P.E2) + P.S2) := by
  unfold steuerbetrag
  rw [if_neg (not_lt.mpr h), if_neg (not_le.mpr h0),
    if_neg (fun hc => absurd hc.2 (not_le.mpr h1)),
    if_neg (fun hc => absurd hc.2 (not_le.mpr h2)), if_pos ⟨h2, h3⟩]

/-- Evaluation of `steuerbetrag` in proportionality zone 2. -/
theorem steuerbetrag_zone4 (P : Params) (zvE : ℚ) (h : 0 ≤ zvE)
    (h0 : P.E0 < zvE) (h1 : P.E1 < zvE) (h2 : P.E2 < zvE) (h3 : P.E3 < zvE) :
    steuerbetrag P zvE = .ok (P.sg4 * (zvE - P.E3) + P.S3) := by
  unfold steuerbetrag
  rw [if_neg (not_lt.mpr h), if_neg (not_le.mpr h0),
    if_neg (fun hc => absurd hc.2 (not_le.mpr h1)),
    if_neg (fun hc => absurd hc.2 (not_le.mpr h2)),
    if_neg (fun hc => absurd hc.2 (not_le.mpr h3)), if_pos h3]

/-! ## Zone-evaluation lemmas for `grenzsteuersatz` -/

/-- Evaluation of `grenzsteuersatz` in the null zone. -/
theorem grenzsteuersatz_zone0 (P : Params) (zvE : ℚ) (h : 0 ≤ zvE) (h0 : zvE ≤ P.E0) :
    grenzsteuersatz P zvE = .ok 0 := by
  unfold grenzsteuersatz
  rw [if_neg (not_lt.mpr h), if_pos h0]

/-- Evaluation of `grenzsteuersatz` in progression zone 1. -/
theorem grenzsteuersatz_zone1 (P : Params) (zvE : ℚ) (h : 0 ≤ zvE)
    (h0 : P.E0 < zvE) (h1 : zvE ≤ P.E1) :
    grenzsteuersatz P zvE = .ok (P.sg1 + (zvE - P.E0) * P.p1 * 2) := by
  unfold grenzsteuersatz
  rw [if_neg (not_lt.mpr h), if_neg (not_le.mpr h0), if_pos ⟨h0, h1⟩]

/-- Evaluation of `grenzsteuersatz` in progression zone 2. -/
theorem grenzsteuersatz_zone2 (P : Params) (zvE : ℚ) (h : 0 ≤ zvE)
    (h0 : P.E0 < zvE) (h1 : P.E1 < zvE) (h2 : zvE ≤ P.E2) :
    grenzsteuersatz P zvE = .ok (P.sg2 + (zvE - P.E1) * P.p2 * 2) := by
  unfold grenzsteuersatz
  rw [if_neg (not_lt.mpr h), if_neg (not_le.mpr h0),
    if_neg (fun hc => absurd hc.2 (not_le.mpr h1)), if_pos ⟨h1, h2⟩]

/-- Evaluation of `grenzsteuersatz` in proportionality zone 1. -/
theorem grenzsteuersatz_zone3 (P : Params) (zvE : ℚ) (h : 0 ≤ zvE)
    (h0 : P.E0 < zvE) (h1 : P.E1 < zvE) (h2 : P.E2 < zvE) (h3 : zvE ≤ P.E3) :
    grenzsteuersatz P zvE = .ok P.sg3 := by
  unfold grenzsteuersatz
  rw [if_neg (not_lt.mpr h), if_neg (not_le.mpr h0),
    if_neg (fun hc => absurd hc.2 (not_le.mpr h1)),
    if_neg (fun hc => absurd hc.2 (not_le.mpr h2)), if_pos ⟨h2, h3⟩]

/-- Evaluation of `grenzsteuersatz` in proportionality zone 2. -/
theorem grenzsteuersatz_zone4 (P : Params) (zvE : ℚ) (h : 0 ≤ zvE)
    (h0 : P.E0 < zvE) (h1 : P.E1 < zvE) (h2 : P.E2 < zvE) (h3 : P.E3 < zvE) :
    grenzsteuersatz P zvE = .ok P.sg4 := by
  unfold grenzsteuersatz
  rw [if_neg (not_lt.mpr h), if_neg (not_le.mpr h0),
    if_neg (fun hc => absurd hc.2 (not_le.mpr h1)),
    if_neg (fun hc => absurd hc.2 (not_le.mpr h2)),
    if_neg (fun hc => absurd hc.2 (not_le.mpr h3)), if_pos h3]

/-- At rational incomes, `taxR` agrees with the value computed by
`steuerbetrag`: the real-valued function is a faithful reading of the code. -/
theorem taxR_ratCast (P : Params) (zvE : ℚ) (h : 0 ≤ zvE) (t : ℚ)
    (ht : steuerbetrag P zvE = .ok t) : taxR P (zvE : ℝ) = (t : ℝ) := by
  by_cases h0 : zvE ≤ P.E0
  · rw [steuerbetrag_zone0 P zvE h h0] at ht
    obtain rfl : (0:ℚ) = t := Except.ok.inj ht
    unfold taxR
    rw [if_pos (by exact_mod_cast h0)]
    norm_num
  · replace h0 : P.E0 < zvE := not_le.mp h0
    by_cases h1 : zvE ≤ P.E1
    · rw [steuerbetrag_zone1 P zvE h h0 h1] at ht
      obtain rfl := Except.ok.inj ht
      unfold taxR
      rw [if_neg (by exact_mod_cast not_le.mpr h0), if_pos (by exact_mod_cast h1)]
      push_cast
      ring
    · replace h1 : P.E1 < zvE := not_le.mp h1
      by_cases h2 : zvE ≤ P.E2
      · rw [steuerbetrag_zone2 P zvE h h0 h1 h2] at ht
        obtain rfl := Except.ok.inj ht
        unfold taxR
        rw [if_neg (by exact_mod_cast not_le.mpr h0), if_neg (by exact_mod_cast not_le.mpr h1),
          if_pos (by exact_mod_cast h2)]
        push_cast
        ring
      · replace h2 : P.E2 < zvE := not_le.mp h2
        by_cases h3 : zvE ≤ P.E3
        · rw [steuerbetrag_zone3 P zvE h h0 h1 h2 h3] at ht
          obtain rfl := Except.ok.inj ht
          unfold taxR
          rw [if_neg (by exact_mod_cast not_le.mpr h0), if_neg (by exact_mod_cast not_le.mpr h1),
            if_neg (by exact_mod_cast not_le.mpr h2), if_pos (by exact_mod_cast h3)]
          push_cast
          ring
        · replace h3 : P.E3 < zvE := not_le.mp h3
          rw [steuerbetrag_zone4 P zvE h h0 h1 h2 h3] at ht
          obtain rfl := Except.ok.inj ht
          unfold taxR
          rw [if_neg (by exact_mod_cast not_le.mpr h0), if_neg (by exact_mod_cast not_le.mpr h1),
            if_neg (by exact_mod_cast not_le.mpr h2), if_neg (by exact_mod_cast not_le.mpr h3)]
          push_cast
          ring

/-! ## Monotonicity via the hinge form -/

/-- On a valid schedule, `steuerbetrag` computes exactly the hinge-sum form:
each zone contributes its rate and progression applied to the income clamped
to the zone, the continuity constants S1, S2, S3 absorbing the completed
lower zones. -/
theorem steuerbetrag_eq_hingeTax (P : Params) (hP : Valid P) (z : ℚ) (h : 0 ≤ z) :
    steuerbetrag P z = .ok (hingeTax P z) := by
  obtain ⟨hE0, h01, h12, h23, hp1, hp2, hsg1, hsg12, hsg23, hsg34, hsg4, hS1, hS2, hS3⟩ := hP
  by_cases h0 : z ≤ P.E0
  · rw [steuerbetrag_zone0 P z h h0]
    refine congrArg Except.ok ?_
    unfold hingeTax
    rw [max_eq_right (by linarith), min_eq_left (by linarith),
      max_eq_right (by linarith), min_eq_left (by linarith),
      max_eq_right (by linarith), min_eq_left (by linarith),
      max_eq_right (by linarith)]
    ring
  · replace h0 : P.E0 < z := not_le.mp h0
    by_cases h1 : z ≤ P.E1
    · rw [steuerbetrag_zone1 P z h h0 h1]
      refine congrArg Except.ok ?_
      unfold hingeTax
      rw [max_eq_left (by linarith), min_eq_left (by linarith),
        max_eq_right (by linarith), min_eq_left (by linarith),
        max_eq_right (by linarith), min_eq_left (by linarith),
        max_eq_right (by linarith)]
      ring
    · replace h1 : P.E1 < z := not_le.mp h1
      by_cases h2 : z ≤ P.E2
      · rw [steuerbetrag_zone2 P z h h0 h1 h2]
        refine congrArg Except.ok ?_
        unfold hingeTax
        rw [max_eq_left (by linarith), min_eq_right (by linarith),
          max_eq_left (by linarith), min_eq_left (by linarith),
          max_eq_right (by linarith), min_eq_left (by linarith),
          max_eq_right (by linarith), hS1]
        ring
      · replace h2 : P.E2 < z := not_le.mp h2
        by_cases h3 : z ≤ P.E3
        · rw [steuerbetrag_zone3 P z h h0 h1 h2 h3]
          refine congrArg Except.ok ?_
          unfold hingeTax
          rw [max_eq_left (by linarith), min_eq_right (by linarith),
            max_eq_left (by linarith), min_eq_right (by linarith),
            max_eq_left (by linarith), min_eq_left (by linarith),
            max_eq_right (by linarith), hS2, hS1]
          ring
        · replace h3 : P.E3 < z := not_le.mp h3
          rw [steuerbetrag_zone4 P z h h0 h1 h2 h3]
          refine congrArg Except.ok ?_
          unfold hingeTax
          rw [max_eq_left (by linarith), min_eq_right (by linarith),
            max_eq_left (by linarith), min_eq_right (by linarith),
            max_eq_left (by linarith), min_eq_right (by linarith),
            max_eq_left (by linarith), hS3, hS2, hS1]
          ring

/-- A rate-plus-progression contribution is monotone in the clamped income. -/
theorem zone_contribution_mono (sg p x y : ℚ) (hsg : 0 ≤ sg) (hp : 0 ≤ p)
    (hx : 0 ≤ x) (hxy : x ≤ y) : sg * x + p * x ^ 2 ≤ sg * y + p * y ^ 2 := by
  have h2 : x ^ 2 ≤ y ^ 2 := pow_le_pow_left₀ hx hxy 2
  have hsgm : sg * x ≤ sg * y := mul_le_mul_of_nonneg_left hxy hsg
  have hpm : p * x ^ 2 ≤ p * y ^ 2 := mul_le_mul_of_nonneg_left h2 hp
  linarith

/-- The hinge-sum form is non-decreasing in the income. -/
theorem hingeTax_mono (P : Params) (hP : Valid P) (a b : ℚ) (hab : a ≤ b) :
    hingeTax P a ≤ hingeTax P b := by
  obtain ⟨hE0, h01, h12, h23, hp1, hp2, hsg1, hsg12, hsg23, hsg34, hsg4, hS1, hS2, hS3⟩ := hP
  have hsg2 : 0 ≤ P.sg2 := le_trans hsg1 hsg12
  have hsg3 : 0 ≤ P.sg3 := le_trans hsg2 hsg23
  have hsg4nn : 0 ≤ P.sg4 := le_trans hsg3 hsg34
  have hc1m : min (max (a - P.E0) 0) (P.E1 - P.E0) ≤ min (max (b - P.E0) 0) (P.E1 - P.E0) :=
    min_le_min (max_le_max (by linarith) le_rfl) le_rfl
  have hc2m : min (max (a - P.E1) 0) (P.E2 - P.E1) ≤ min (max (b - P.E1) 0) (P.E2 - P.E1) :=
    min_le_min (max_le_max (by linarith) le_rfl) le_rfl
  have hc3m : min (max (a - P.E2) 0) (P.E3 - P.E2) ≤ min (max (b - P.E2) 0) (P.E3 - P.E2) :=
    min_le_min (max_le_max (by linarith) le_rfl) le_rfl
  have hc4m : max (a - P.E3) 0 ≤ max (b - P.E3) 0 := max_le_max (by linarith) le_rfl
  have hc1a : 0 ≤ min (max (a - P.E0) 0) (P.E1 - P.E0) :=
    le_min (le_max_right _ _) (by linarith)
  have hc2a : 0 ≤ min (max (a - P.E1) 0) (P.E2 - P.E1) :=
    le_min (le_max_right _ _) (by linarith)
  have q1 := zone_contribution_mono P.sg1 P.p1 _ _ hsg1 hp1 hc1a hc1m
  have q2 := zone_contribution_mono P.sg2 P.p2 _ _ hsg2 hp2 hc2a hc2m
  have q3 : P.sg3 * min (max (a - P.E2) 0) (P.E3 - P.E2) ≤
      P.sg3 * min (max (b - P.E2) 0) (P.E3 - P.E2) :=
    mul_le_mul_of_nonneg_left hc3m hsg3
  have q4 : P.sg4 * max (a - P.E3) 0 ≤ P.sg4 * max (b - P.E3) 0 :=
    mul_le_mul_of_nonneg_left hc4m hsg4nn
  unfold hingeTax
  linarith

/-! ## Derivatives of the real tax function away from the breakpoints -/

/-- Below E0 the real tax function is locally 0, with derivative 0. -/
theorem taxR_hasDerivAt_zone0 (P : Params) (x : ℝ) (h0 : x < (P.E0 : ℝ)) :
    HasDerivAt (taxR P) 0 x := by
  have hev : taxR P =ᶠ[nhds x] fun _ => (0:ℝ) := by
    filter_upwards [Iio_mem_nhds h0] with y hy
    unfold taxR
    rw [if_pos (le_of_lt hy)]
  exact (hasDerivAt_const x 0).congr_of_eventuallyEq hev

/-- Strictly inside progression zone 1 the real tax function has derivative
`sg1 + 2·p1·(x−E0)`. -/
theorem taxR_hasDerivAt_zone1 (P : Params) (x : ℝ)
    (h0 : (P.E0 : ℝ) < x) (h1 : x < (P.E1 : ℝ)) :
    HasDerivAt (taxR P) ((P.sg1 : ℝ) + 2 * P.p1 * (x - P.E0)) x := by
  have hid : HasDerivAt (fun y : ℝ => y - (P.E0:ℝ)) 1 x := (hasDerivAt_id x).sub_const _
  have hA : HasDerivAt (fun y : ℝ => (P.sg1:ℝ) * (y - P.E0)) ((P.sg1:ℝ) * 1) x :=
    hid.const_mul _
  have hB := (hid.pow 2).mul_const (P.p1 : ℝ)
  have hpoly := hA.add hB
  have hev : taxR P =ᶠ[nhds x]
      fun y : ℝ => (P.sg1:ℝ) * (y - P.E0) + (y - (P.E0:ℝ)) ^ 2 * P.p1 := by
    filter_upwards [Ioo_mem_nhds h0 h1] with y hy
    unfold taxR
    rw [if_neg (not_le.mpr hy.1), if_pos (le_of_lt hy.2)]
  have hres := hpoly.congr_of_eventuallyEq hev
  convert hres using 1
  push_cast
  ring

/-- Strictly inside progression zone 2 the real tax function has derivative
`sg2 + 2·p2·(x−E1)`. -/
theorem taxR_hasDerivAt_zone2 (P : Params) (x : ℝ) (h01 : (P.E0 : ℝ) < P.E1)
    (h1 : (P.E1 : ℝ) < x) (h2 : x < (P.E2 : ℝ)) :
    HasDerivAt (taxR P) ((P.sg2 : ℝ) + 2 * P.p2 * (x - P.E1)) x := by
  have hid : HasDerivAt (fun y : ℝ => y - (P.E1:ℝ)) 1 x := (hasDerivAt_id x).sub_const _
  have hA : HasDerivAt (fun y : ℝ => (P.sg2:ℝ) * (y - P.E1)) ((P.sg2:ℝ) * 1) x :=
    hid.const_mul _
  have hB := (hid.pow 2).mul_const (P.p2 : ℝ)
  have hpoly := (hA.add hB).add_const (P.S1 : ℝ)
  have hev : taxR P =ᶠ[nhds x]
      fun y : ℝ => (P.sg2:ℝ) * (y - P.E1) + (y - (P.E1:ℝ)) ^ 2 * P.p2 + P.S1 := by
    filter_upwards [Ioo_mem_nhds h1 h2] with y hy
    unfold taxR
    rw [if_neg (not_le.mpr (lt_trans h01 hy.1)), if_neg (not_le.mpr hy.1),
      if_pos (le_of_lt hy.2)]
  have hres := hpoly.congr_of_eventuallyEq hev
  convert hres using 1
  push_cast
  ring

/-- Strictly inside proportionality zone 1 the real tax function has constant
derivative `sg3`. -/
theorem taxR_hasDerivAt_zone3 (P : Params) (x : ℝ) (h01 : (P.E0 : ℝ) < P.E1)
    (h12 : (P.E1 : ℝ) < P.E2) (h2 : (P.E2 : ℝ) < x) (h3 : x < (P.E3 : ℝ)) :
    HasDerivAt (taxR P) (P.sg3 : ℝ) x := by
  have hid : HasDerivAt (fun y : ℝ => y - (P.E2:ℝ)) 1 x := (hasDerivAt_id x).sub_const _
  have hpoly := (hid.const_mul (P.sg3 : ℝ)).add_const (P.S2 : ℝ)
  have hev : taxR P =ᶠ[nhds x] fun y : ℝ => (P.sg3:ℝ) * (y - P.E2) + P.S2 := by
    filter_upwards [Ioo_mem_nhds h2 h3] with y hy
    unfold taxR
    rw [if_neg (not_le.mpr (lt_trans h01 (lt_trans h12 hy.1))),
      if_neg (not_le.mpr (lt_trans h12 hy.1)), if_neg (not_le.mpr hy.1),
      if_pos (le_of_lt hy.2)]
  have hres := hpoly.congr_of_eventuallyEq hev
  convert hres using 1
  ring

/-- Strictly inside proportionality zone 2 the real tax function has constant
derivative `sg4`. -/
theorem taxR_hasDerivAt_zone4 (P : Params) (x : ℝ) (h01 : (P.E0 : ℝ) < P.E1)
    (h12 : (P.E1 : ℝ) < P.E2) (h23 : (P.E2 : ℝ) < P.E3) (h3 : (P.E3 : ℝ) < x) :
    HasDerivAt (taxR P) (P.sg4 : ℝ) x := by
  have hid : HasDerivAt (fun y : ℝ => y - (P.E3:ℝ)) 1 x := (hasDerivAt_id x).sub_const _
  have hpoly := (hid.const_mul (P.sg4 : ℝ)).add_const (P.S3 : ℝ)
  have hev : taxR P =ᶠ[nhds x] fun y : ℝ => (P.sg4:ℝ) * (y - P.E3) + P.S3 := by
    filter_upwards [Ioi_mem_nhds h3] with y hy
    unfold taxR
    rw [if_neg (not_le.mpr (lt_trans h01 (lt_trans h12 (lt_trans h23 hy)))),
      if_neg (not_le.mpr (lt_trans h12 (lt_trans h23 hy))),
      if_neg (not_le.mpr (lt_trans h23 hy)), if_neg (not_le.mpr hy)]
  have hres := hpoly.congr_of_eventuallyEq hev
  convert hres using 1
  ring

/-! ## Evaluation lemmas for `adjust` -/

/-- `adjust` on equal years returns the amount unchanged (step 1 of the
spec's algorithm, before any validation). -/
theorem adjust_same (inf : Inflation) (x : ℚ) (y : Int) : adjust inf x y y = .ok x := by
  unfold adjust
  rw [if_pos rfl]

/-- `adjust` on an in-range forward span multiplies by the compounding
product over `(a, b]`. -/
theorem adjust_forward (inf : Inflation) (x : ℚ) (a b : Int)
    (ha1 : inf.minYear ≤ a) (ha2 : a ≤ inf.maxYear)
    (hb1 : inf.minYear ≤ b) (hb2 : b ≤ inf.maxYear) (hab : a < b) :
    adjust inf x a b = .ok (x * compFactor inf a b) := by
  unfold adjust
  rw [if_neg hab.ne, if_neg (not_lt.mpr ha1), if_neg (not_lt.mpr ha2),
    if_neg (not_lt.mpr hb1), if_neg (not_lt.mpr hb2), if_pos hab]

/-- `adjust` on an in-range backward span divides by the compounding product
over `(b, a]`. -/
theorem adjust_backward (inf : Inflation) (x : ℚ) (a b : Int)
    (ha1 : inf.minYear ≤ a) (ha2 : a ≤ inf.maxYear)
    (hb1 : inf.minYear ≤ b) (hb2 : b ≤ inf.maxYear) (hba : b < a) :
    adjust inf x a b = .ok (x / compFactor inf b a) := by
  unfold adjust
  rw [if_neg hba.ne', if_neg (not_lt.mpr ha1), if_neg (not_lt.mpr ha2),
    if_neg (not_lt.mpr hb1), if_neg (not_lt.mpr hb2), if_neg (not_lt.mpr hba.le)]

/-- When no year of the list carries a conversion factor, the step factors
reduce to the pure compounding factors. -/
theorem prod_stepFactor_no_conversions (inf : Inflation) (l : List Int)
    (hc : ∀ y ∈ l, inf.conversions y = none) :
    (l.map (stepFactor inf)).prod = (l.map (fun y => 1 + inf.rates y / 100)).prod := by
  induction l with
  | nil => rfl
  | cons y l ih =>
    simp only [List.map_cons, List.prod_cons]
    rw [ih (fun z hz => hc z (List.mem_cons_of_mem y hz))]
    have hy : stepFactor inf y = 1 + inf.rates y / 100 := by
      unfold stepFactor convFactor
      rw [hc y (List.mem_cons_self y l)]
      ring
    rw [hy]

/-- A product of nonzero step factors is nonzero. -/
theorem prod_stepFactor_ne_zero (inf : Inflation) (l : List Int)
    (h : ∀ y ∈ l, stepFactor inf y ≠ 0) : (l.map (stepFactor inf)).prod ≠ 0 := by
  induction l with
  | nil => simp
  | cons y l ih =>
    simp only [List.map_cons, List.prod_cons]
    exact mul_ne_zero (h y (List.mem_cons_self y l))
      (ih fun z hz => h z (List.mem_cons_of_mem y hz))

/-! ## Success and failure of the sampling helpers -/

/-- `Except.bind` on a success reduces to the continuation. -/
theorem except_bind_ok {α β : Type} (a : α) (f : α → Except String β) :
    (Except.ok a : Except String α).bind f = f a := rfl

/-- `Except.map` on a success maps the value. -/
theorem except_map_ok {α β : Type} (a : α) (f : α → β) :
    (Except.ok a : Except String α).map f = .ok (f a) := rfl

/-- Every point of a sampling grid with nonnegative start and step is
nonnegative. -/
theorem sampleRange_nonneg (start step : ℚ) (steps : ℕ) (hs : 0 ≤ start)
    (hstep : 0 ≤ step) : ∀ z ∈ sampleRange start step steps, 0 ≤ z := by
  intro z hz
  unfold sampleRange at hz
  obtain ⟨i, _, rfl⟩ := List.mem_map.mp hz
  exact add_nonneg hs (mul_nonneg (Nat.cast_nonneg i) hstep)

/-- `steuerbetrag` succeeds on every nonnegative income. -/
theorem steuerbetrag_isOk (P : Params) (z : ℚ) (h : 0 ≤ z) :
    ∃ w, steuerbetrag P z = .ok w := by
  by_cases h0 : z ≤ P.E0
  · exact ⟨0, steuerbetrag_zone0 P z h h0⟩
  · replace h0 : P.E0 < z := not_le.mp h0
    by_cases h1 : z ≤ P.E1
    · exact ⟨_, steuerbetrag_zone1 P z h h0 h1⟩
    · replace h1 : P.E1 < z := not_le.mp h1
      by_cases h2 : z ≤ P.E2
      · exact ⟨_, steuerbetrag_zone2 P z h h0 h1 h2⟩
      · replace h2 : P.E2 < z := not_le.mp h2
        by_cases h3 : z ≤ P.E3
        · exact ⟨_, steuerbetrag_zone3 P z h h0 h1 h2 h3⟩
        · exact ⟨_, steuerbetrag_zone4 P z h h0 h1 h2 (not_le.mp h3)⟩

/-- `steuersatz` succeeds on every nonnegative income. -/
theorem steuersatz_isOk (P : Params) (z : ℚ) (h : 0 ≤ z) :
    ∃ w, steuersatz P z = .ok w := by
  rcases h.eq_or_lt with heq | hpos
  · refine ⟨0, ?_⟩
    rw [← heq]
    unfold steuersatz
    norm_num
  · obtain ⟨w, hw⟩ := steuerbetrag_isOk P z h
    refine ⟨w / z, ?_⟩
    unfold steuersatz
    rw [if_neg (not_lt.mpr h), if_neg hpos.ne', hw]
    rfl

/-- `adjust` succeeds whenever both years are inside the table's coverage. -/
theorem adjust_isOk (inf : Inflation) (x : ℚ) (a b : Int)
    (ha1 : inf.minYear ≤ a) (ha2 : a ≤ inf.maxYear)
    (hb1 : inf.minYear ≤ b) (hb2 : b ≤ inf.maxYear) :
    ∃ z, adjust inf x a b = .ok z := by
  rcases lt_trichotomy a b with h | rfl | h
  · exact ⟨_, adjust_forward inf x a b ha1 ha2 hb1 hb2 h⟩
  · exact ⟨x, adjust_same inf x a⟩
  · exact ⟨_, adjust_backward inf x a b ha1 ha2 hb1 hb2 h⟩

/-- A `mapM` over `Except` succeeds when each element does. -/
theorem mapM_isOk {α β : Type} (f : α → Except String β) (l : List α)
    (h : ∀ z ∈ l, ∃ w, f z = .ok w) : ∃ r, l.mapM f = .ok r := by
  induction l with
  | nil => exact ⟨[], rfl⟩
  | cons z l ih =>
    obtain ⟨w, hw⟩ := h z (List.mem_cons_self z l)
    obtain ⟨r, hr⟩ := ih (fun y hy => h y (List.mem_cons_of_mem z hy))
    refine ⟨w :: r, ?_⟩
    rw [List.mapM_cons]
    simp only [hw, hr, except_bind_ok]
    rfl

/-! ## Claim theorems -/

/-- C2: under the spec's validity constraints (ordered nonnegative thresholds,
nonnegative progression, monotone rates bounded by 1, and S1, S2, S3 the
continuity constants), the tax amount is non-decreasing in income: whenever
0 ≤ a ≤ b, the amount at a is at most the amount at b. -/
theorem steuerbetrag_monotone (P : Params) (hP : Valid P) (a b : ℚ)
    (ha : 0 ≤ a) (hab : a ≤ b) (ta tb : ℚ)
    (hta : steuerbetrag P a = .ok ta) (htb : steuerbetrag P b = .ok tb) :
    ta ≤ tb := by
  have hb : 0 ≤ b := le_trans ha hab
  rw [steuerbetrag_eq_hingeTax P hP a ha] at hta
  rw [steuerbetrag_eq_hingeTax P hP b hb] at htb
  obtain rfl : hingeTax P a = ta := Except.ok.inj hta
  obtain rfl : hingeTax P b = tb := Except.ok.inj htb
  exact hingeTax_mono P hP a b hab

/-- C2 witness: the concrete schedule is valid and the tax amounts at incomes
15 and 25 (3/4 and 13/4) are ordered. -/
theorem steuerbetrag_monotone_witness :
    Valid paramsW ∧ steuerbetrag paramsW 15 = .ok (3/4) ∧
    steuerbetrag paramsW 25 = .ok (13/4) ∧ (3/4 : ℚ) ≤ 13/4 := by
  have hV : Valid paramsW := by norm_num [Valid, paramsW]
  have h15 : steuerbetrag paramsW 15 = .ok (3/4) := by
    rw [steuerbetrag_zone1 paramsW 15 (by norm_num) (by norm_num [paramsW])
      (by norm_num [paramsW])]
    norm_num [paramsW]
  have h25 : steuerbetrag paramsW 25 = .ok (13/4) := by
    rw [steuerbetrag_zone2 paramsW 25 (by norm_num) (by norm_num [paramsW])
      (by norm_num [paramsW]) (by norm_num [paramsW])]
    norm_num [paramsW]
  exact ⟨hV, h15, h25,
    steuerbetrag_monotone paramsW hV 15 25 (by norm_num) (by norm_num) _ _ h15 h25⟩

/-- C1: for every income zvE ≥ 0, `steuerbetrag` returns 0 below E0, the local
quadratic `sg·Δ + p·Δ²` (plus the cumulative amount) in the two progression
zones, and the local linear form in the two proportionality zones, the zone
being picked by the first matching half-open-from-above comparison in
ascending order. -/
theorem steuerbetrag_zone_formula (P : Params) (zvE : ℚ) (h : 0 ≤ zvE) :
    steuerbetrag P zvE = .ok (
      if zvE ≤ P.E0 then 0
      else if zvE ≤ P.E1 then P.sg1 * (zvE - P.E0) + P.p1 * (zvE - P.E0) ^ 2
      else if zvE ≤ P.E2 then P.sg2 * (zvE - P.E1) + P.p2 * (zvE - P.E1) ^ 2 + P.S1
      else if zvE ≤ P.E3 then P.sg3 * (zvE - P.E2) + P.S2
      else P.sg4 * (zvE - P.E3) + P.S3) := by
  by_cases h0 : zvE ≤ P.E0
  · rw [steuerbetrag_zone0 P zvE h h0, if_pos h0]
  · rw [if_neg h0]
    replace h0 : P.E0 < zvE := not_le.mp h0
    by_cases h1 : zvE ≤ P.E1
    · rw [steuerbetrag_zone1 P zvE h h0 h1, if_pos h1]
      exact congrArg Except.ok (by ring)
    · rw [if_neg h1]
      replace h1 : P.E1 < zvE := not_le.mp h1
      by_cases h2 : zvE ≤ P.E2
      · rw [steuerbetrag_zone2 P zvE h h0 h1 h2, if_pos h2]
        exact congrArg Except.ok (by ring)
      · rw [if_neg h2]
        replace h2 : P.E2 < zvE := not_le.mp h2
        by_cases h3 : zvE ≤ P.E3
        · rw [steuerbetrag_zone3 P zvE h h0 h1 h2 h3, if_pos h3]
        · rw [if_neg h3]
          exact steuerbetrag_zone4 P zvE h h0 h1 h2 (not_le.mp h3)

/-- C1 witness: the zone formula instantiated at the concrete schedule and
income 25 (progression zone 2). -/
theorem steuerbetrag_zone_formula_witness :
    (0:ℚ) ≤ 25 ∧ steuerbetrag paramsW 25 = .ok (
      if (25:ℚ) ≤ paramsW.E0 then 0
      else if (25:ℚ) ≤ paramsW.E1 then
        paramsW.sg1 * (25 - paramsW.E0) + paramsW.p1 * (25 - paramsW.E0) ^ 2
      else if (25:ℚ) ≤ paramsW.E2 then
        paramsW.sg2 * (25 - paramsW.E1) + paramsW.p2 * (25 - paramsW.E1) ^ 2 + paramsW.S1
      else if (25:ℚ) ≤ paramsW.E3 then paramsW.sg3 * (25 - paramsW.E2) + paramsW.S2
      else paramsW.sg4 * (25 - paramsW.E3) + paramsW.S3) :=
  ⟨by norm_num, steuerbetrag_zone_formula paramsW 25 (by norm_num)⟩

/-- C6: for every income zvE ≥ 0 the marginal rate is 0 below E0,
`sg + 2·p·Δ` in the two progression zones (the derivative of the quadratic
doubling the progression coefficient) and the constants sg3, sg4 in the two
proportionality zones; and for an ordered schedule this returned value is the
derivative of the real tax-amount function at every income other than the
four breakpoints. -/
theorem grenzsteuersatz_spec (P : Params) (zvE : ℚ) (h : 0 ≤ zvE) :
    grenzsteuersatz P zvE = .ok (
      if zvE ≤ P.E0 then 0
      else if zvE ≤ P.E1 then P.sg1 + 2 * P.p1 * (zvE - P.E0)
      else if zvE ≤ P.E2 then P.sg2 + 2 * P.p2 * (zvE - P.E1)
      else if zvE ≤ P.E3 then P.sg3
      else P.sg4) ∧
    (P.E0 < P.E1 → P.E1 < P.E2 → P.E2 < P.E3 →
      zvE ≠ P.E0 → zvE ≠ P.E1 → zvE ≠ P.E2 → zvE ≠ P.E3 →
      ∀ g, grenzsteuersatz P zvE = .ok g →
        HasDerivAt (taxR P) (g : ℝ) ((zvE : ℚ) : ℝ)) := by
  constructor
  · by_cases h0 : zvE ≤ P.E0
    · rw [grenzsteuersatz_zone0 P zvE h h0, if_pos h0]
    · rw [if_neg h0]
      replace h0 : P.E0 < zvE := not_le.mp h0
      by_cases h1 : zvE ≤ P.E1
      · rw [grenzsteuersatz_zone1 P zvE h h0 h1, if_pos h1]
        exact congrArg Except.ok (by ring)
      · rw [if_neg h1]
        replace h1 : P.E1 < zvE := not_le.mp h1
        by_cases h2 : zvE ≤ P.E2
        · rw [grenzsteuersatz_zone2 P zvE h h0 h1 h2, if_pos h2]
          exact congrArg Except.ok (by ring)
        · rw [if_neg h2]
          replace h2 : P.E2 < zvE := not_le.mp h2
          by_cases h3 : zvE ≤ P.E3
          · rw [grenzsteuersatz_zone3 P zvE h h0 h1 h2 h3, if_pos h3]
          · rw [if_neg h3]
            exact grenzsteuersatz_zone4 P zvE h h0 h1 h2 (not_le.mp h3)
  · intro h01 h12 h23 hne0 hne1 hne2 hne3 g hg
    by_cases h0 : zvE ≤ P.E0
    · rw [grenzsteuersatz_zone0 P zvE h h0] at hg
      obtain rfl : (0:ℚ) = g := Except.ok.inj hg
      have hd := taxR_hasDerivAt_zone0 P zvE
        (by exact_mod_cast lt_of_le_of_ne h0 hne0)
      exact_mod_cast hd
    · replace h0 : P.E0 < zvE := not_le.mp h0
      by_cases h1 : zvE ≤ P.E1
      · rw [grenzsteuersatz_zone1 P zvE h h0 h1] at hg
        obtain rfl := Except.ok.inj hg
        have hd := taxR_hasDerivAt_zone1 P zvE (by exact_mod_cast h0)
          (by exact_mod_cast lt_of_le_of_ne h1 hne1)
        convert hd using 1
        push_cast
        ring
      · replace h1 : P.E1 < zvE := not_le.mp h1
        by_cases h2 : zvE ≤ P.E2
        · rw [grenzsteuersatz_zone2 P zvE h h0 h1 h2] at hg
          obtain rfl := Except.ok.inj hg
          have hd := taxR_hasDerivAt_zone2 P zvE (by exact_mod_cast h01)
            (by exact_mod_cast h1) (by exact_mod_cast lt_of_le_of_ne h2 hne2)
          convert hd using 1
          push_cast
          ring
        · replace h2 : P.E2 < zvE := not_le.mp h2
          by_cases h3 : zvE ≤ P.E3
          · rw [grenzsteuersatz_zone3 P zvE h h0 h1 h2 h3] at hg
            obtain rfl := Except.ok.inj hg
            exact taxR_hasDerivAt_zone3 P zvE (by exact_mod_cast h01)
              (by exact_mod_cast h12) (by exact_mod_cast h2)
              (by exact_mod_cast lt_of_le_of_ne h3 hne3)
          · replace h3 : P.E3 < zvE := not_le.mp h3
            rw [grenzsteuersatz_zone4 P zvE h h0 h1 h2 h3] at hg
            obtain rfl := Except.ok.inj hg
            exact taxR_hasDerivAt_zone4 P zvE (by exact_mod_cast h01)
              (by exact_mod_cast h12) (by exact_mod_cast h23) (by exact_mod_cast h3)

/-- C6 witness: at the concrete schedule and income 25 (inside progression
zone 2, away from all breakpoints) the marginal rate is 3/10 and the real tax
function has derivative 3/10 there. -/
theorem grenzsteuersatz_spec_witness :
    grenzsteuersatz paramsW 25 = .ok (3/10) ∧
    HasDerivAt (taxR paramsW) (((3/10 : ℚ) : ℝ)) (((25 : ℚ) : ℝ)) := by
  have hg : grenzsteuersatz paramsW 25 = .ok (3/10) := by
    rw [grenzsteuersatz_zone2 paramsW 25 (by norm_num) (by norm_num [paramsW])
      (by norm_num [paramsW]) (by norm_num [paramsW])]
    norm_num [paramsW]
  exact ⟨hg, (grenzsteuersatz_spec paramsW 25 (by norm_num)).2
    (by norm_num [paramsW]) (by norm_num [paramsW]) (by norm_num [paramsW])
    (by norm_num [paramsW]) (by norm_num [paramsW]) (by norm_num [paramsW])
    (by norm_num [paramsW]) (3/10) hg⟩

/-- C7: for positive income the average rate is exactly the tax amount divided
by the income, and at income 0 it is exactly 0 with no division performed. -/
theorem steuersatz_spec (P : Params) (zvE : ℚ) :
    (0 < zvE → ∀ t, steuerbetrag P zvE = .ok t → steuersatz P zvE = .ok (t / zvE)) ∧
    steuersatz P 0 = .ok 0 := by
  constructor
  · intro hz t ht
    unfold steuersatz
    rw [if_neg (not_lt.mpr hz.le), if_neg hz.ne', ht]
    rfl
  · unfold steuersatz
    norm_num

/-- C7 witness: at the concrete schedule, the average rate at income 25 is the
tax amount 13/4 divided by 25, and the average rate at 0 is 0. -/
theorem steuersatz_spec_witness :
    steuerbetrag paramsW 25 = .ok (13/4) ∧ steuersatz paramsW 25 = .ok (13/4/25) ∧
    steuersatz paramsW 0 = .ok 0 := by
  have hb : steuerbetrag paramsW 25 = .ok (13/4) := by
    rw [steuerbetrag_zone2 paramsW 25 (by norm_num) (by norm_num [paramsW])
      (by norm_num [paramsW]) (by norm_num [paramsW])]
    norm_num [paramsW]
  exact ⟨hb, (steuersatz_spec paramsW 25).1 (by norm_num) (13/4) hb,
    (steuersatz_spec paramsW 0).2⟩

/-- C8: every negative income makes all three evaluators fail with the
invalid-input error, in particular income -1. -/
theorem negative_income_rejected (P : Params) (zvE : ℚ) (h : zvE < 0) :
    steuerbetrag P zvE = .error invalidInputMsg ∧
    steuersatz P zvE = .error invalidInputMsg ∧
    grenzsteuersatz P zvE = .error invalidInputMsg := by
  refine ⟨?_, ?_, ?_⟩
  · unfold steuerbetrag; rw [if_pos h]
  · unfold steuersatz; rw [if_pos h]
  · unfold grenzsteuersatz; rw [if_pos h]

/-- C8 witness: the three evaluators at the concrete schedule and income -1. -/
theorem negative_income_rejected_witness :
    steuerbetrag paramsW (-1) = .error invalidInputMsg ∧
    steuersatz paramsW (-1) = .error invalidInputMsg ∧
    grenzsteuersatz paramsW (-1) = .error invalidInputMsg :=
  negative_income_rejected paramsW (-1) (by norm_num)

/-- C3: for in-range years, a forward adjustment multiplies the amount by
`1 + rate/100` successively over the years in `(fromYear, toYear]` (the
fromYear's own rate unused) and a backward adjustment divides by the same
product over `(toYear, fromYear]` — stated for spans without conversion
factors, as in the claim's scenario; concretely, on the test table,
adjust(100, 2003, 2004) = 101.6 and adjust(100, 2003, 2005) = 103.2256. -/
theorem adjust_compounding :
    (∀ (inf : Inflation) (x : ℚ) (a b : Int),
      inf.minYear ≤ a → a ≤ inf.maxYear → inf.minYear ≤ b → b ≤ inf.maxYear → a < b →
      (∀ y ∈ spanYears a b, inf.conversions y = none) →
      adjust inf x a b =
        .ok (x * ((spanYears a b).map (fun y => 1 + inf.rates y / 100)).prod)) ∧
    (∀ (inf : Inflation) (x : ℚ) (a b : Int),
      inf.minYear ≤ a → a ≤ inf.maxYear → inf.minYear ≤ b → b ≤ inf.maxYear → b < a →
      (∀ y ∈ spanYears b a, inf.conversions y = none) →
      adjust inf x a b =
        .ok (x / ((spanYears b a).map (fun y => 1 + inf.rates y / 100)).prod)) ∧
    adjust inflation_de 100 2003 2004 = .ok 101.6 ∧
    adjust inflation_de 100 2003 2005 = .ok 103.2256 := by
  refine ⟨?_, ?_, ?_, ?_⟩
  · intro inf x a b ha1 ha2 hb1 hb2 hab hc
    rw [adjust_forward inf x a b ha1 ha2 hb1 hb2 hab]
    unfold compFactor
    rw [prod_stepFactor_no_conversions inf _ hc]
  · intro inf x a b ha1 ha2 hb1 hb2 hba hc
    rw [adjust_backward inf x a b ha1 ha2 hb1 hb2 hba]
    unfold compFactor
    rw [prod_stepFactor_no_conversions inf _ hc]
  · rw [adjust_forward inflation_de 100 2003 2004 (by decide) (by decide) (by decide)
      (by decide) (by decide)]
    refine congrArg Except.ok ?_
    unfold compFactor
    rw [show spanYears 2003 2004 = [2004] from rfl]
    simp only [List.map_cons, List.map_nil, List.prod_cons, List.prod_nil]
    norm_num [stepFactor, convFactor, inflation_de, rates_de, conversions_de]
  · rw [adjust_forward inflation_de 100 2003 2005 (by decide) (by decide) (by decide)
      (by decide) (by decide)]
    refine congrArg Except.ok ?_
    unfold compFactor
    rw [show spanYears 2003 2005 = [2004, 2005] from rfl]
    simp only [List.map_cons, List.map_nil, List.prod_cons, List.prod_nil]
    norm_num [stepFactor, convFactor, inflation_de, rates_de, conversions_de]

/-- C3 witness: the forward compounding formula applied on the test table over
the conversion-free span 2003..2005. -/
theorem adjust_compounding_witness :
    adjust inflation_de 100 2003 2005 =
      .ok (100 * ((spanYears 2003 2005).map
        (fun y => 1 + inflation_de.rates y / 100)).prod) :=
  adjust_compounding.1 inflation_de 100 2003 2005 (by decide) (by decide) (by decide)
    (by decide) (by decide) (by decide)

/-- C4: adjusting between identical years returns the amount unchanged, even
when that year carries a currency-conversion factor; concretely,
adjust(100, 2002, 2002) = 100 on the test table whose conversions map 2002 to
1/1.95583. -/
theorem adjust_same_year :
    (∀ (inf : Inflation) (x : ℚ) (y : Int),
      inf.minYear ≤ y → y ≤ inf.maxYear → adjust inf x y y = .ok x) ∧
    conversions_de 2002 = some (1 / 1.95583) ∧
    adjust inflation_de 100 2002 2002 = .ok 100 :=
  ⟨fun inf x y _ _ => adjust_same inf x y, rfl, adjust_same inflation_de 100 2002⟩

/-- C4 witness: the same-year identity on the test table at year 2001. -/
theorem adjust_same_year_witness :
    adjust inflation_de 100 2001 2001 = .ok 100 :=
  adjust_same_year.1 inflation_de 100 2001 (by decide) (by decide)

/-- C5 counterexample: with both years equal to 1997, below the test table's
minimum year 1998, `adjust` does not fail — the spec's same-year short
circuit (step 1 of its algorithm) precedes validation, so the claim's
"fails whenever fromYear or toYear lies outside coverage" is false. -/
theorem adjust_out_of_range_counterexample :
    (1997 : Int) < inflation_de.minYear ∧ adjust inflation_de 100 1997 1997 = .ok 100 :=
  ⟨by decide, adjust_same inflation_de 100 1997⟩

/-- C5 (amended to unequal years): whenever fromYear ≠ toYear, `adjust` fails
as soon as either year leaves the table's coverage, with the message naming
the side (Start for fromYear, End for toYear) and the violated bound together
with the offending year and the bound value; concretely, on the 1998-2006
table, adjust(100, 1997, 2003) fails naming 1997 and the minimum year
1998. -/
theorem adjust_out_of_range :
    (∀ (inf : Inflation) (x : ℚ) (a b : Int), a ≠ b →
      (a < inf.minYear → adjust inf x a b = .error (startMinMsg a inf.minYear)) ∧
      (inf.minYear ≤ a → inf.maxYear < a →
        adjust inf x a b = .error (startMaxMsg a inf.maxYear)) ∧
      (inf.minYear ≤ a → a ≤ inf.maxYear → b < inf.minYear →
        adjust inf x a b = .error (endMinMsg b inf.minYear)) ∧
      (inf.minYear ≤ a → a ≤ inf.maxYear → inf.minYear ≤ b → inf.maxYear < b →
        adjust inf x a b = .error (endMaxMsg b inf.maxYear))) ∧
    adjust inflation_de 100 1997 2003 =
      .error "Start year '1997' must be greater than or equal to minimum year '1998'." := by
  constructor
  · intro inf x a b hne
    refine ⟨?_, ?_, ?_, ?_⟩
    · intro h1
      unfold adjust
      rw [if_neg hne, if_pos h1]
    · intro h1 h2
      unfold adjust
      rw [if_neg hne, if_neg (not_lt.mpr h1), if_pos h2]
    · intro h1 h2 h3
      unfold adjust
      rw [if_neg hne, if_neg (not_lt.mpr h1), if_neg (not_lt.mpr h2), if_pos h3]
    · intro h1 h2 h3 h4
      unfold adjust
      rw [if_neg hne, if_neg (not_lt.mpr h1), if_neg (not_lt.mpr h2),
        if_neg (not_lt.mpr h3), if_pos h4]
  · unfold adjust
    rw [if_neg (by decide : ¬ ((1997:Int) = 2003)),
      if_pos (show (1997:Int) < inflation_de.minYear by decide)]
    rfl

/-- C5 witness: the end-above-maximum case of the amended statement on the
test table (adjust(100, 2004, 2007), as in the tests). -/
theorem adjust_out_of_range_witness :
    adjust inflation_de 100 2004 2007 = .error (endMaxMsg 2007 2006) :=
  (adjust_out_of_range.1 inflation_de 100 2004 2007 (by decide)).2.2.2
    (by decide) (by decide) (by decide) (by decide)

/-- C9 counterexample: on a degenerate table whose rate is -100% the
compounding factor is 0, so the forward adjustment collapses 100 to 0 and the
backward adjustment of the result returns 0, not 100 — the round trip as
claimed fails without a nonvanishing-factor assumption. -/
theorem adjust_roundtrip_counterexample :
    adjust degenerateInflation 100 2000 2001 = .ok 0 ∧
    adjust degenerateInflation 0 2001 2000 = .ok 0 ∧ (0 : ℚ) ≠ 100 := by
  refine ⟨?_, ?_, by norm_num⟩
  · rw [adjust_forward degenerateInflation 100 2000 2001 (by decide) (by decide)
      (by decide) (by decide) (by decide)]
    refine congrArg Except.ok ?_
    unfold compFactor
    rw [show spanYears 2000 2001 = [2001] from rfl]
    simp only [List.map_cons, List.map_nil, List.prod_cons, List.prod_nil]
    norm_num [stepFactor, convFactor, degenerateInflation]
  · rw [adjust_backward degenerateInflation 0 2001 2000 (by decide) (by decide)
      (by decide) (by decide) (by decide)]
    refine congrArg Except.ok ?_
    exact zero_div _

/-- C9 (amended with nonvanishing factors): for any in-range years a, b and
any amount, when every compounding step factor over the traversed span is
nonzero (true of any real table: rates above -100% and nonzero conversion
factors), the backward adjustment exactly inverts the forward one, also
across a currency-conversion year. -/
theorem adjust_roundtrip (inf : Inflation) (x : ℚ) (a b : Int)
    (ha1 : inf.minYear ≤ a) (ha2 : a ≤ inf.maxYear)
    (hb1 : inf.minYear ≤ b) (hb2 : b ≤ inf.maxYear)
    (hnz : ∀ y ∈ spanYears (min a b) (max a b), stepFactor inf y ≠ 0) :
    ∃ z, adjust inf x a b = .ok z ∧ adjust inf z b a = .ok x := by
  rcases lt_trichotomy a b with hab | rfl | hba
  · rw [min_eq_left hab.le, max_eq_right hab.le] at hnz
    have hC : compFactor inf a b ≠ 0 := prod_stepFactor_ne_zero inf _ hnz
    refine ⟨x * compFactor inf a b,
      adjust_forward inf x a b ha1 ha2 hb1 hb2 hab, ?_⟩
    rw [adjust_backward inf _ b a hb1 hb2 ha1 ha2 hab]
    exact congrArg Except.ok (mul_div_cancel_right₀ x hC)
  · exact ⟨x, adjust_same inf x a, adjust_same inf x a⟩
  · rw [min_eq_right hba.le, max_eq_left hba.le] at hnz
    have hC : compFactor inf b a ≠ 0 := prod_stepFactor_ne_zero inf _ hnz
    refine ⟨x / compFactor inf b a,
      adjust_backward inf x a b ha1 ha2 hb1 hb2 hba, ?_⟩
    rw [adjust_forward inf _ b a hb1 hb2 ha1 ha2 hba]
    exact congrArg Except.ok (div_mul_cancel₀ x hC)

/-- C9 witness: the exact round trip on the test table over 2001..2003, a
span that crosses the 2002 currency conversion. -/
theorem adjust_roundtrip_witness :
    ∃ z, adjust inflation_de 100 2001 2003 = .ok z ∧
      adjust inflation_de z 2003 2001 = .ok 100 :=
  adjust_roundtrip inflation_de 100 2001 2003 (by decide) (by decide) (by decide)
    (by decide)
    (by
      intro y hy
      have hl : spanYears (min (2001:Int) 2003) (max (2001:Int) 2003) = [2002, 2003] := by
        decide
      rw [hl] at hy
      have : y = 2002 ∨ y = 2003 := by simpa using hy
      rcases this with rfl | rfl <;>
        norm_num [stepFactor, convFactor, inflation_de, rates_de, conversions_de])

/-- C10 counterexample: a real-variant sampler with perfectly valid bounds
(start = 0 ≤ E0, end = 350000 ≥ E3) still fails when the base year precedes
the schedule's year — that check runs first — so "otherwise it succeeds" is
false as claimed. -/
theorem data_validation_counterexample :
    (0:ℚ) ≤ paramsW.E0 ∧ paramsW.E3 ≤ 350000 ∧ (2002 : Int) < paramsW.Jahr ∧
    steuerbetrag_real_data paramsW inflation_de 2002 0 350000 1000 =
      .error (baseyearMsg 2002 2003) := by
  refine ⟨by norm_num [paramsW], by norm_num [paramsW], by decide, ?_⟩
  unfold steuerbetrag_real_data
  rw [if_pos (show paramsW.Jahr > 2002 by decide)]
  rfl

/-- C10 (amended): the four samplers fail whenever start < 0, start > E0 or
end < E3; with good bounds the nominal samplers succeed, while the real
variants first require baseyear ≥ the schedule's year (failing otherwise even
with good bounds) and succeed when additionally both years lie in the
inflation table's coverage. -/
theorem data_validation (P : Params) (inf : Inflation) (b : Int) (start ende : ℚ)
    (steps : ℕ) (hE03 : P.E0 ≤ P.E3) :
    (¬ (start < 0 ∨ start > P.E0 ∨ ende < P.E3) →
      (∃ l, steuerbetrag_data P start ende steps = .ok l) ∧
      (∃ l, steuersatz_data P start ende steps = .ok l)) ∧
    ((start < 0 ∨ start > P.E0 ∨ ende < P.E3) →
      (∃ e, steuerbetrag_data P start ende steps = .error e) ∧
      (∃ e, steuersatz_data P start ende steps = .error e) ∧
      (∃ e, steuerbetrag_real_data P inf b start ende steps = .error e) ∧
      (∃ e, steuersatz_real_data P inf b start ende steps = .error e)) ∧
    (b < P.Jahr →
      (∃ e, steuerbetrag_real_data P inf b start ende steps = .error e) ∧
      (∃ e, steuersatz_real_data P inf b start ende steps = .error e)) ∧
    (P.Jahr ≤ b → inf.minYear ≤ P.Jahr → P.Jahr ≤ inf.maxYear →
      inf.minYear ≤ b → b ≤ inf.maxYear →
      ¬ (start < 0 ∨ start > P.E0 ∨ ende < P.E3) →
      (∃ l, steuerbetrag_real_data P inf b start ende steps = .ok l) ∧
      (∃ l, steuersatz_real_data P inf b start ende steps = .ok l)) := by
  have step_facts : ¬ start < 0 → ¬ start > P.E0 → ¬ ende < P.E3 →
      ∀ z ∈ sampleRange start ((ende - start) / (steps : ℚ)) steps, 0 ≤ z := by
    intro h1 h2 h3
    refine sampleRange_nonneg start _ steps (not_lt.mp h1) ?_
    have hse : start ≤ ende := by
      have he := not_lt.mp h3
      have hs := not_lt.mp h2
      linarith
    exact div_nonneg (by linarith) (Nat.cast_nonneg steps)
  refine ⟨?_, ?_, ?_, ?_⟩
  · intro hgood
    rw [not_or, not_or] at hgood
    obtain ⟨h1, h2, h3⟩ := hgood
    constructor
    · rw [show steuerbetrag_data P start ende steps = ((sampleRange start
        ((ende - start) / (steps : ℚ)) steps).mapM
        (fun z => (steuerbetrag P z).map (fun w => ⟨z, w, "Nominalwert"⟩)))
        from by unfold steuerbetrag_data; rw [if_neg h1, if_neg h2, if_neg h3]]
      refine mapM_isOk _ _ (fun z hz => ?_)
      obtain ⟨w, hw⟩ := steuerbetrag_isOk P z (step_facts h1 h2 h3 z hz)
      exact ⟨_, by rw [hw]; rfl⟩
    · rw [show steuersatz_data P start ende steps = ((sampleRange start
        ((ende - start) / (steps : ℚ)) steps).mapM
        (fun z => (steuersatz P z).map (fun w => ⟨z, w, "Nominalwert"⟩)))
        from by unfold steuersatz_data; rw [if_neg h1, if_neg h2, if_neg h3]]
      refine mapM_isOk _ _ (fun z hz => ?_)
      obtain ⟨w, hw⟩ := steuersatz_isOk P z (step_facts h1 h2 h3 z hz)
      exact ⟨_, by rw [hw]; rfl⟩
  · intro hbad
    have errData : ∃ e, steuerbetrag_data P start ende steps = .error e := by
      unfold steuerbetrag_data
      by_cases h1 : start < 0
      · rw [if_pos h1]; exact ⟨_, rfl⟩
      · rw [if_neg h1]
        by_cases h2 : start > P.E0
        · rw [if_pos h2]; exact ⟨_, rfl⟩
        · rw [if_neg h2]
          have h3 : ende < P.E3 := by
            rcases hbad with h | h | h
            · exact absurd h h1
            · exact absurd h h2
            · exact h
          rw [if_pos h3]; exact ⟨_, rfl⟩
    have errSatz : ∃ e, steuersatz_data P start ende steps = .error e := by
      unfold steuersatz_data
      by_cases h1 : start < 0
      · rw [if_pos h1]; exact ⟨_, rfl⟩
      · rw [if_neg h1]
        by_cases h2 : start > P.E0
        · rw [if_pos h2]; exact ⟨_, rfl⟩
        · rw [if_neg h2]
          have h3 : ende < P.E3 := by
            rcases hbad with h | h | h
            · exact absurd h h1
            · exact absurd h h2
            · exact h
          rw [if_pos h3]; exact ⟨_, rfl⟩
    have errRealData : ∃ e, steuerbetrag_real_data P inf b start ende steps = .error e := by
      unfold steuerbetrag_real_data
      by_cases hj : P.Jahr > b
      · rw [if_pos hj]; exact ⟨_, rfl⟩
      · rw [if_neg hj]
        by_cases h1 : start < 0
        · rw [if_pos h1]; exact ⟨_, rfl⟩
        · rw [if_neg h1]
          by_cases h2 : start > P.E0
          · rw [if_pos h2]; exact ⟨_, rfl⟩
          · rw [if_neg h2]
            have h3 : ende < P.E3 := by
              rcases hbad with h | h | h
              · exact absurd h h1
              · exact absurd h h2
              · exact h
            rw [if_pos h3]; exact ⟨_, rfl⟩
    have errRealSatz : ∃ e, steuersatz_real_data P inf b start ende steps = .error e := by
      unfold steuersatz_real_data
      by_cases hj : P.Jahr > b
      · rw [if_pos hj]; exact ⟨_, rfl⟩
      · rw [if_neg hj]
        by_cases h1 : start < 0
        · rw [if_pos h1]; exact ⟨_, rfl⟩
        · rw [if_neg h1]
          by_cases h2 : start > P.E0
          · rw [if_pos h2]; exact ⟨_, rfl⟩
          · rw [if_neg h2]
            have h3 : ende < P.E3 := by
              rcases hbad with h | h | h
              · exact absurd h h1
              · exact absurd h h2
              · exact h
            rw [if_pos h3]; exact ⟨_, rfl⟩
    exact ⟨errData, errSatz, errRealData, errRealSatz⟩
  · intro hj
    constructor
    · unfold steuerbetrag_real_data
      rw [if_pos hj]
      exact ⟨_, rfl⟩
    · unfold steuersatz_real_data
      rw [if_pos hj]
      exact ⟨_, rfl⟩
  · intro hjb hj1 hj2 hb1 hb2 hgood
    rw [not_or, not_or] at hgood
    obtain ⟨h1, h2, h3⟩ := hgood
    constructor
    · rw [show steuerbetrag_real_data P inf b start ende steps = (((sampleRange start
        ((ende - start) / (steps : ℚ)) steps).mapM
        (fun z => (adjust inf z P.Jahr b).bind (fun zr =>
          (steuerbetrag P z).bind (fun w =>
            (adjust inf w P.Jahr b).map (fun wr =>
              (⟨zr, wr, "Realwert (" ++ toString b ++ ")"⟩ : DataPoint)))))).map
        (fun l => l.filter (fun p => p.zvE ≤ ende)))
        from by
          unfold steuerbetrag_real_data
          rw [if_neg (not_lt.mpr hjb), if_neg h1, if_neg h2, if_neg h3]]
      have helem : ∀ z ∈ sampleRange start ((ende - start) / (steps : ℚ)) steps,
          ∃ w, (adjust inf z P.Jahr b).bind (fun zr =>
            (steuerbetrag P z).bind (fun w =>
              (adjust inf w P.Jahr b).map (fun wr =>
                (⟨zr, wr, "Realwert (" ++ toString b ++ ")"⟩ : DataPoint)))) = .ok w := by
        intro z hz
        obtain ⟨zr, hzr⟩ := adjust_isOk inf z P.Jahr b hj1 hj2 hb1 hb2
        obtain ⟨w, hw⟩ := steuerbetrag_isOk P z (step_facts h1 h2 h3 z hz)
        obtain ⟨wr, hwr⟩ := adjust_isOk inf w P.Jahr b hj1 hj2 hb1 hb2
        exact ⟨⟨zr, wr, "Realwert (" ++ toString b ++ ")"⟩,
          by simp only [hzr, hw, hwr, except_bind_ok, except_map_ok]⟩
      obtain ⟨r, hr⟩ := mapM_isOk _ _ helem
      rw [hr]
      exact ⟨_, rfl⟩
    · rw [show steuersatz_real_data P inf b start ende steps = (((sampleRange start
        ((ende - start) / (steps : ℚ)) steps).mapM
        (fun z => (adjust inf z P.Jahr b).bind (fun zr =>
          (steuersatz P z).map (fun w =>
            (⟨zr, w, "Realwert (" ++ toString b ++ ")"⟩ : DataPoint))))).map
        (fun l => l.filter (fun p => p.zvE ≤ ende)))
        from by
          unfold steuersatz_real_data
          rw [if_neg (not_lt.mpr hjb), if_neg h1, if_neg h2, if_neg h3]]
      have helem : ∀ z ∈ sampleRange start ((ende - start) / (steps : ℚ)) steps,
          ∃ w, (adjust inf z P.Jahr b).bind (fun zr =>
            (steuersatz P z).map (fun w =>
              (⟨zr, w, "Realwert (" ++ toString b ++ ")"⟩ : DataPoint))) = .ok w := by
        intro z hz
        obtain ⟨zr, hzr⟩ := adjust_isOk inf z P.Jahr b hj1 hj2 hb1 hb2
        obtain ⟨w, hw⟩ := steuersatz_isOk P z (step_facts h1 h2 h3 z hz)
        exact ⟨⟨zr, w, "Realwert (" ++ toString b ++ ")"⟩,
          by simp only [hzr, hw, except_bind_ok, except_map_ok]⟩
      obtain ⟨r, hr⟩ := mapM_isOk _ _ helem
      rw [hr]
      exact ⟨_, rfl⟩

/-- C10 witness: on the concrete schedule (year 2003) with base year 2005 and
good bounds, the real tax-amount sampler succeeds. -/
theorem data_validation_witness :
    ∃ l, steuerbetrag_real_data paramsW inflation_de 2005 0 350000 1000 = .ok l :=
  ((data_validation paramsW inflation_de 2005 0 350000 1000
    (by norm_num [paramsW])).2.2.2 (by decide) (by decide) (by decide) (by decide)
    (by decide) (by norm_num [paramsW])).1

end FinanceUtils
